import Mathlib

/-!
Verification of the local computation in the BPM-lifecycle demo app
(`src/app.py`): the task extractor `extract_tasks_from_text`, the
process-definition document builder `generate_enhanced_bpmn_xml`, the
diagram builder `create_enhanced_graph`, and the five-stage orchestration
in `main`.  Each Python function is shallowly embedded as an executable
Lean definition; text is `String` / `List Char`, Python `None`-like
failure is `Option`.
-/

namespace BPMApp

/-- Python whitespace characters: the set removed by `str.strip()` and
matched by the regex class `\s` (for `str` patterns, restricted to the
ASCII range that can occur here). -/
def pySpace (c : Char) : Bool :=
  c = ' ' || c = '\t' || c = '\n' || c = '\r' || c = '\x0b' || c = '\x0c'

/-- Python `str.strip()` on a character list: drop whitespace from both ends. -/
def pyStripL (cs : List Char) : List Char :=
  ((cs.dropWhile pySpace).reverse.dropWhile pySpace).reverse

/-- Python `str.strip()` on a `String`. -/
def pyStrip (s : String) : String :=
  String.mk (pyStripL s.toList)

/-- Python `text.split(chr 10)` on a character list: split on every newline,
keeping empty pieces (`"".split` gives `[""]`). -/
def splitLinesL (cs : List Char) : List (List Char) :=
  cs.foldr
    (fun c r =>
      if c = '\n' then [] :: r
      else
        match r with
        | [] => [[c]]
        | l :: ls => (c :: l) :: ls)
    [[]]

/-- Python `text.split(chr 10)` on a `String`. -/
def splitLines (s : String) : List (List Char) :=
  splitLinesL s.toList

/-- The group captured by the regex tail `\s*(.+)$` applied to the remainder
`r` of a line after the list marker (`re.match` semantics): the greedy `\s*`
eats the leading whitespace, backtracking one character when that would leave
nothing for `(.+)`; no match when `r` is empty. -/
def listItemGroup (r : List Char) : Option (List Char) :=
  if r = [] then none
  else
    let t := r.dropWhile pySpace
    some (if t = [] then [r.getLastD ' '] else t)

/-- Embedding of `re.match` of the numbered-list pattern `^\d+\.\s*(.+)$` (app.py line 40):
a maximal nonempty digit run, a literal dot, then the `\s*(.+)$` tail.
Returns the captured group. -/
def numberedMatch (cs : List Char) : Option (List Char) :=
  match cs.dropWhile Char.isDigit, (cs.takeWhile Char.isDigit).isEmpty with
  | '.' :: r, false => listItemGroup r
  | _, _ => none

/-- Embedding of `re.match` of the bulleted-list pattern `^[-•*]\s*(.+)$` (app.py line 41). -/
def bulletedMatch : List Char → Option (List Char)
  | c :: r => if c = '-' || c = '•' || c = '*' then listItemGroup r else none
  | [] => none

/-- The tuple argument of `line.startswith(('The', 'This', 'Here', 'Below'))`
(app.py line 64). -/
def fillerStarts : List (List Char) :=
  ["The".toList, "This".toList, "Here".toList, "Below".toList]

/-- Python `line.startswith(('The', 'This', 'Here', 'Below'))`: a character
prefix test against each alternative. -/
def startsWithFiller (cs : List Char) : Bool :=
  fillerStarts.any (fun p => p.isPrefixOf cs)

/-- One iteration of the `for line in lines` loop of
`extract_tasks_from_text` (app.py lines 46-65), appending to the `tasks`
accumulator: strip the line, skip it when blank, otherwise try the numbered
pattern, then the bulleted pattern (each contributing `match.group(1).strip()`),
otherwise include the stripped line when it is longer than 10 characters and
does not start with a filler prefix. -/
def processLine (tasks : List (List Char)) (rawLine : List Char) : List (List Char) :=
  let line := pyStripL rawLine
  if line = [] then tasks
  else
    match numberedMatch line with
    | some g => tasks ++ [pyStripL g]
    | none =>
      match bulletedMatch line with
      | some g => tasks ++ [pyStripL g]
      | none =>
        if 10 < line.length && !startsWithFiller line then tasks ++ [line]
        else tasks

/-- Embedding of `extract_tasks_from_text` (app.py lines 37-67): run the per-line loop over
`text.strip().split(chr 10)`; if it produced nothing, fall back to
`[line.strip() for line in text.split(chr 10) if line.strip()]`. -/
def extract_tasks_from_text (text : String) : List (List Char) :=
  let lines := splitLinesL (pyStripL text.toList)
  let tasks := lines.foldl processLine []
  if tasks = [] then
    ((splitLines text).map pyStripL).filter (fun l => l ≠ [])
  else tasks

/-! ## Display-name truncation (app.py lines 89 and 163) -/

/-- The ellipsis marker `'...'` appended to truncated names. -/
def ellipsis : List Char := ['.', '.', '.']

/-- The task-entry name of the document builder (app.py line 89):
`task[:50] + ('...' if len(task) > 50 else '')`. -/
def bpmnNameL (t : List Char) : List Char :=
  t.take 50 ++ (if 50 < t.length then ellipsis else [])

/-- The node display name of the diagram builder (app.py line 163):
`task[:30] + '...' if len(task) > 30 else task`. -/
def graphNameL (t : List Char) : List Char :=
  if 30 < t.length then t.take 30 ++ ellipsis else t

/-! ## `generate_enhanced_bpmn_xml` (app.py lines 69-147)

The Python function returns a string: `""` for an empty task list, otherwise
`xmltodict.unparse` of a nested dict describing the process.  We embed the
document structure itself (the dict fed to the serializer) and model the
`return ""` branch as `none`; serialization is a mechanical, injective step
the claims do not touch. -/

/-- One `sequenceFlow` entry of the document: attributes `@id`, `@sourceRef`,
`@targetRef` (app.py lines 140-145). -/
structure BpmnFlow where
  id : String
  sourceRef : String
  targetRef : String
  deriving Repr, DecidableEq

/-- The `process` element of the generated document: the element lists keyed
by tag in `process_dict` plus the process attributes (app.py lines 117-145).
Element entries are `(id, name)` attribute pairs. -/
structure BpmnDoc where
  processName : String
  startEvents : List (String × List Char)
  taskEntries : List (String × List Char)
  endEvents : List (String × List Char)
  sequenceFlows : List BpmnFlow
  deriving Repr, DecidableEq

/-- The sequence-flow loop of `generate_enhanced_bpmn_xml`
(app.py lines 98-115): `prev` starts at `StartEvent_1`; iteration `i`
(0-based) emits `Flow_(i+1) : prev → Task_(i+1)` and advances `prev`; after
the loop one final flow `Flow_(n+1) : prev → EndEvent_1` is emitted. -/
def seqFlowsAux : Nat → String → List (List Char) → List BpmnFlow
  | i, prev, [] => [⟨"Flow_" ++ toString (i + 1), prev, "EndEvent_1"⟩]
  | i, prev, _ :: ts =>
    ⟨"Flow_" ++ toString (i + 1), prev, "Task_" ++ toString (i + 1)⟩ ::
      seqFlowsAux (i + 1) ("Task_" ++ toString (i + 1)) ts

/-- Embedding of `generate_enhanced_bpmn_xml` (app.py lines 69-147).  `none` models the
early `return ""` for an empty task list; otherwise the document holds one
start event, one task entry per task (id `Task_(i+1)`, truncated name), one
end event, and the sequence flows of the loop above. -/
def generate_enhanced_bpmn_xml (tasks : List (List Char)) (process_name : String) :
    Option BpmnDoc :=
  if tasks = [] then none
  else some
    { processName := process_name
      startEvents := [("StartEvent_1", "Start".toList)]
      taskEntries := tasks.enum.map
        (fun p => ("Task_" ++ toString (p.1 + 1), bpmnNameL p.2))
      endEvents := [("EndEvent_1", "End".toList)]
      sequenceFlows := seqFlowsAux 0 "StartEvent_1" tasks }

/-! ## `create_enhanced_graph` (app.py lines 149-173) -/

/-- A node added by a `dot.node` call: identifier, label, and the explicit
per-call `shape`/`fillcolor` keyword arguments (`none` when the call leaves
them to the graph-wide defaults). -/
structure GNode where
  id : String
  label : List Char
  shape : Option String
  fillcolor : Option String
  deriving Repr, DecidableEq

/-- An edge added by a `dot.edge` call. -/
structure GEdge where
  src : String
  dst : String
  deriving Repr, DecidableEq

/-- The graph object accumulated by `create_enhanced_graph`: its comment
(the `title` argument) and the node and edge lists in insertion order. -/
structure Graph where
  comment : String
  nodes : List GNode
  edges : List GEdge
  deriving Repr, DecidableEq

/-- The task loop of `create_enhanced_graph` (app.py lines 159-166):
iteration `i` adds node `task_i` labelled with the truncated name and an edge
from the previous node; returns the task nodes, the edges, and the final
`prev_node`. -/
def graphLoop : String → Nat → List (List Char) → List GNode × List GEdge × String
  | prev, _, [] => ([], [], prev)
  | prev, i, t :: ts =>
    let nid := "task_" ++ toString i
    let (ns, es, last) := graphLoop nid (i + 1) ts
    (⟨nid, graphNameL t, none, none⟩ :: ns, ⟨prev, nid⟩ :: es, last)

/-- Embedding of `create_enhanced_graph` (app.py lines 149-173): start node, one node per
task chained by edges, end node, and the final edge to `end` only when the
task list is nonempty (`if tasks:` on line 170). -/
def create_enhanced_graph (tasks : List (List Char)) (title : String) : Graph :=
  let startNode : GNode := ⟨"start", "START".toList, some "circle", some "lightgreen"⟩
  let endNode : GNode := ⟨"end", "END".toList, some "circle", some "lightcoral"⟩
  let (taskNodes, taskEdges, last) := graphLoop "start" 0 tasks
  { comment := title
    nodes := startNode :: taskNodes ++ [endNode]
    edges := taskEdges ++ (if tasks = [] then [] else [⟨last, "end"⟩]) }

/-! ## Five-stage orchestration in `main` (app.py lines 418-580)

Each stage's body is `try: result = chain.run(...) ... except: st.error(...)`.
An `Oracle` gives, for each stage, the outcome its external call would have
if attempted: `some text` for a normal return, `none` for a raised exception.
Python's `'x_result' in locals()` guard is exactly "the stage's call was
attempted and returned normally", which the embedding carries as the
`output` field of a stage record. -/

/-- The outcomes the external model calls would have, per stage
(`none` = the call raises). -/
structure Oracle where
  identification : Option String
  discovery : Option String
  analysis : Option String
  redesign : Option String
  monitoring : Option String
  deriving Repr, DecidableEq

/-- What one stage's tab did: whether its external call was attempted, the
text it produced (`none` when the call failed or was never made), whether an
inline `st.error` was shown, and whether the "Please complete the X stage
first." `st.warning` notice was shown. -/
structure StageRecord where
  attempted : Bool
  output : Option String
  errorShown : Bool
  skipNotice : Bool
  deriving Repr, DecidableEq

/-- A stage whose guard passed: the call runs inside `try`; an exception is
caught and shown via `st.error` (app.py lines 440-449 and the analogous
blocks). -/
def callStage (r : Option String) : StageRecord :=
  { attempted := true, output := r, errorShown := r.isNone, skipNotice := false }

/-- A stage whose `'..._result' in locals()` guard failed: no call is made
and the `st.warning` notice is shown (app.py lines 509-510, 557-558,
576-577). -/
def skipStage : StageRecord :=
  { attempted := false, output := none, errorShown := false, skipNotice := true }

/-- The records of the five tabs, in order. -/
structure LifecycleTrace where
  identification : StageRecord
  discovery : StageRecord
  analysis : StageRecord
  redesign : StageRecord
  monitoring : StageRecord
  deriving Repr, DecidableEq

/-- The five-tab run triggered by the analysis button (app.py lines 435-577):
identification and discovery are always attempted; analysis runs only if
`discovery_result` exists (line 497), redesign only if `analysis_result`
exists (line 516), monitoring only if `redesign_result` exists (line 564). -/
def runLifecycle (o : Oracle) : LifecycleTrace :=
  let ident := callStage o.identification
  let disc := callStage o.discovery
  let ana := if disc.output.isSome then callStage o.analysis else skipStage
  let red := if ana.output.isSome then callStage o.redesign else skipStage
  let mon := if red.output.isSome then callStage o.monitoring else skipStage
  ⟨ident, disc, ana, red, mon⟩

/-! ## Spec-side restatement of the extraction policy (spec §4.1) -/

/-- The extraction policy for one line, stated as in the spec: a line
matching the numbered-list or bulleted-list pattern contributes its trailing
text with the pattern stripped; a non-matching line longer than 10 characters
not starting with a filler prefix is included verbatim; otherwise the line
contributes nothing. -/
def spec_lineRule (rawLine : List Char) : Option (List Char) :=
  let line := pyStripL rawLine
  match numberedMatch line with
  | some g => some (pyStripL g)
  | none =>
    match bulletedMatch line with
    | some g => some (pyStripL g)
    | none =>
      if 10 < line.length && !startsWithFiller line then some line else none

/-- The extractor as the spec states it: collect the per-line contributions;
if no line qualified under any rule, fall back to every non-blank line of the
input, stripped. -/
def spec_extract (text : String) : List (List Char) :=
  let contributed := (splitLinesL (pyStripL text.toList)).filterMap spec_lineRule
  if contributed = [] then
    ((splitLines text).map pyStripL).filter (fun l => l ≠ [])
  else contributed

lemma processLine_eq (tasks : List (List Char)) (l : List Char) :
    processLine tasks l = tasks ++ (spec_lineRule l).toList := by
  unfold processLine spec_lineRule
  by_cases h : pyStripL l = []
  · simp [h, numberedMatch, bulletedMatch, startsWithFiller, fillerStarts]
  · simp only [h, if_false]
    cases hn : numberedMatch (pyStripL l) <;>
      cases hb : bulletedMatch (pyStripL l) <;>
        simp [hn, hb]
    split <;> simp

lemma foldl_processLine (lines : List (List Char)) (acc : List (List Char)) :
    lines.foldl processLine acc = acc ++ lines.filterMap spec_lineRule := by
  induction lines generalizing acc with
  | nil => simp
  | cons l ls ih =>
    cases hr : spec_lineRule l <;>
      simp [List.foldl_cons, processLine_eq, hr, ih, List.filterMap_cons]

/-- C3: the imperative per-line loop of `extract_tasks_from_text` implements
exactly the spec's per-line policy with its fallback. -/
theorem extract_tasks_meets_policy (text : String) :
    extract_tasks_from_text text = spec_extract text := by
  unfold extract_tasks_from_text spec_extract
  dsimp only
  rw [foldl_processLine]
  simp

/-- C10: the purely numbered input yields exactly its three items in order. -/
theorem extract_numbered_example :
    extract_tasks_from_text "1. A\n2. B\n3. C"
      = ["A".toList, "B".toList, "C".toList] := by decide

/-- The first whitespace-delimited word of a line. -/
def firstWordL (cs : List Char) : List Char :=
  cs.takeWhile (fun c => !pySpace c)

/-- C4: the filler exclusion is a character-prefix test, not a word test:
the line `Therefore we proceed` is longer than 10 characters, matches neither
list pattern, and its first word `Therefore` is none of the four filler
words, yet the line is excluded from the result because it starts with the
characters `The`. -/
theorem filler_exclusion_char_test :
    10 < "Therefore we proceed".toList.length ∧
    numberedMatch "Therefore we proceed".toList = none ∧
    bulletedMatch "Therefore we proceed".toList = none ∧
    firstWordL "Therefore we proceed".toList = "Therefore".toList ∧
    "Therefore".toList ∉ fillerStarts ∧
    startsWithFiller "Therefore we proceed".toList = true ∧
    extract_tasks_from_text "1. A\nTherefore we proceed" = ["A".toList] := by
  decide

/-- C5: whenever the input has at least one non-blank line, the extractor
returns a non-empty list — the loop's output if it produced anything, else
the non-blank fallback. -/
theorem extract_nonempty (text : String)
    (h : ∃ l ∈ splitLines text, pyStripL l ≠ []) :
    extract_tasks_from_text text ≠ [] := by
  unfold extract_tasks_from_text
  dsimp only
  split
  · obtain ⟨l, hl, hne⟩ := h
    intro hempty
    have hmem : pyStripL l ∈
        ((splitLines text).map pyStripL).filter (fun x => x ≠ []) := by
      refine List.mem_filter.mpr ⟨List.mem_map_of_mem _ hl, by simpa using hne⟩
    rw [hempty] at hmem
    exact absurd hmem (List.not_mem_nil _)
  · next h2 => exact h2

/-- Witness for `extract_nonempty` at a concrete input. -/
theorem extract_nonempty_witness :
    (∃ l ∈ splitLines "hello world!", pyStripL l ≠ []) ∧
      extract_tasks_from_text "hello world!" ≠ [] := by
  refine ⟨⟨"hello world!".toList, by decide, by decide⟩, ?_⟩
  exact extract_nonempty "hello world!" ⟨"hello world!".toList, by decide, by decide⟩

/-! ## Spec-side chain shape of the document flows (spec §4.3, §8) -/

/-- Identifier of the j-th non-end node of the document: the start marker
for `j = 0`, the j-th task entry (1-based) otherwise. -/
def nodeName (j : Nat) : String :=
  if j = 0 then "StartEvent_1" else "Task_" ++ toString j

/-- The j-th node of the intended linear chain over `n` tasks: start marker,
then the task entries in list order, then the end marker at `j = n + 1`. -/
def chainNode (n j : Nat) : String :=
  if j ≤ n then nodeName j else "EndEvent_1"

/-- The single linear chain of `n + 1` flows the spec describes: flow `j`
(0-based, id `Flow_(j+1)`) connects chain node `j` to chain node `j + 1`. -/
def spec_chainFlows (n : Nat) : List BpmnFlow :=
  (List.range (n + 1)).map
    (fun j => ⟨"Flow_" ++ toString (j + 1), chainNode n j, chainNode n (j + 1)⟩)

lemma seqFlowsAux_eq (ts : List (List Char)) (i : Nat) :
    seqFlowsAux i (nodeName i) ts =
      ((List.range ts.length).map
        (fun k => ⟨"Flow_" ++ toString (i + k + 1), nodeName (i + k),
          nodeName (i + k + 1)⟩)) ++
      [⟨"Flow_" ++ toString (i + ts.length + 1), nodeName (i + ts.length),
        "EndEvent_1"⟩] := by
  induction ts generalizing i with
  | nil => simp [seqFlowsAux]
  | cons t ts ih =>
    have h1 : ("Task_" ++ toString (i + 1)) = nodeName (i + 1) := by
      simp [nodeName]
    simp only [seqFlowsAux, List.length_cons, h1, ih (i + 1)]
    rw [List.range_succ_eq_map]
    simp [List.map_map, Function.comp_def, Nat.succ_eq_add_one, Nat.add_assoc,
      Nat.add_comm, Nat.add_left_comm]

lemma chainNode_of_le (n j : Nat) (h : j ≤ n) : chainNode n j = nodeName j := by
  simp [chainNode, h]

lemma seqFlows_chain (ts : List (List Char)) :
    seqFlowsAux 0 "StartEvent_1" ts = spec_chainFlows ts.length := by
  have h0 : "StartEvent_1" = nodeName 0 := by simp [nodeName]
  rw [h0, seqFlowsAux_eq]
  unfold spec_chainFlows
  rw [List.range_succ, List.map_append]
  congr 1
  · refine List.map_congr_left ?_
    intro k hk
    have hk' : k < ts.length := List.mem_range.mp hk
    have e1 : chainNode ts.length k = nodeName k :=
      chainNode_of_le _ _ (Nat.le_of_lt hk')
    have e2 : chainNode ts.length (k + 1) = nodeName (k + 1) :=
      chainNode_of_le _ _ hk'
    simp [e1, e2]
  · have e1 : chainNode ts.length ts.length = nodeName ts.length :=
      chainNode_of_le _ _ (Nat.le_refl _)
    have e2 : chainNode ts.length (ts.length + 1) = "EndEvent_1" := by
      unfold chainNode
      rw [if_neg (by omega)]
    simp [e1, e2]

/-- C1 (amended to non-empty task lists): for a non-empty task list of
length n the document builder produces a document with exactly n task
entries and n+1 sequence-flow entries, the flows forming a single linear
chain from the start marker through the task entries in list order to the
end marker. -/
theorem generate_bpmn_linear_chain (tasks : List (List Char)) (name : String)
    (h : tasks ≠ []) :
    ∃ d, generate_enhanced_bpmn_xml tasks name = some d ∧
      d.taskEntries.length = tasks.length ∧
      d.sequenceFlows.length = tasks.length + 1 ∧
      d.sequenceFlows = spec_chainFlows tasks.length ∧
      d.taskEntries.map Prod.fst =
        (List.range tasks.length).map (fun j => "Task_" ++ toString (j + 1)) ∧
      d.startEvents = [("StartEvent_1", "Start".toList)] ∧
      d.endEvents = [("EndEvent_1", "End".toList)] := by
  unfold generate_enhanced_bpmn_xml
  rw [if_neg h]
  refine ⟨_, rfl, by simp, ?_, seqFlows_chain tasks, ?_, rfl, rfl⟩
  · show (seqFlowsAux 0 "StartEvent_1" tasks).length = tasks.length + 1
    rw [seqFlows_chain]
    simp [spec_chainFlows]
  · show (tasks.enum.map
        (fun p => ("Task_" ++ toString (p.1 + 1), bpmnNameL p.2))).map Prod.fst
      = (List.range tasks.length).map (fun j => "Task_" ++ toString (j + 1))
    rw [List.map_map, ← List.enum_map_fst tasks, List.map_map]
    simp [Function.comp_def]

/-- Witness for `generate_bpmn_linear_chain` at a two-task list. -/
theorem generate_bpmn_linear_chain_witness :
    ∃ d, generate_enhanced_bpmn_xml ["A".toList, "B".toList] "P" = some d ∧
      d.taskEntries.length = ["A".toList, "B".toList].length ∧
      d.sequenceFlows.length = ["A".toList, "B".toList].length + 1 ∧
      d.sequenceFlows = spec_chainFlows ["A".toList, "B".toList].length ∧
      d.taskEntries.map Prod.fst =
        (List.range ["A".toList, "B".toList].length).map
          (fun j => "Task_" ++ toString (j + 1)) ∧
      d.startEvents = [("StartEvent_1", "Start".toList)] ∧
      d.endEvents = [("EndEvent_1", "End".toList)] :=
  generate_bpmn_linear_chain ["A".toList, "B".toList] "P" (by decide)

/-- C1 counterexample: for the empty task list (n = 0) the builder does not
produce a document with 0+1 flow entries — it produces no document at all
(the empty string, modelled `none`). -/
theorem generate_bpmn_empty_breaks_chain_claim :
    ¬ ∃ d, generate_enhanced_bpmn_xml [] "Business Process" = some d ∧
        d.sequenceFlows.length = 0 + 1 := by
  intro hex
  obtain ⟨d, hd, _⟩ := hex
  simp [generate_enhanced_bpmn_xml] at hd

/-- C2: for the empty task list the builder takes the `return ""` branch
(modelled `none`): no document, hence no start element, no end element, and
zero sequence-flow entries rather than task count + 1. -/
theorem generate_bpmn_empty_string (process_name : String) :
    generate_enhanced_bpmn_xml [] process_name = none := by
  simp [generate_enhanced_bpmn_xml]

/-- C8: display names produced by either builder respect their truncation
budget: past the budget (50 for document task entries, 30 for diagram
nodes) the name ends with the ellipsis marker and its length is at most
budget plus the ellipsis length; at or under the budget the name is the
task unchanged. -/
theorem truncation_respects_budget (t : List Char) :
    (50 < t.length →
      (∃ p, bpmnNameL t = p ++ ellipsis) ∧
        (bpmnNameL t).length ≤ 50 + ellipsis.length) ∧
    (t.length ≤ 50 → bpmnNameL t = t) ∧
    (30 < t.length →
      (∃ p, graphNameL t = p ++ ellipsis) ∧
        (graphNameL t).length ≤ 30 + ellipsis.length) ∧
    (t.length ≤ 30 → graphNameL t = t) := by
  refine ⟨fun h => ⟨⟨t.take 50, ?_⟩, ?_⟩, fun h => ?_,
    fun h => ⟨⟨t.take 30, ?_⟩, ?_⟩, fun h => ?_⟩
  · simp [bpmnNameL, h]
  · simp only [bpmnNameL, if_pos h, List.length_append, List.length_take]
    simp [ellipsis]
  · simp [bpmnNameL, Nat.not_lt.mpr h, List.take_of_length_le h]
  · simp [graphNameL, h]
  · simp only [graphNameL, if_pos h, List.length_append, List.length_take]
    simp [ellipsis]
  · simp [graphNameL, Nat.not_lt.mpr h, List.take_of_length_le h]

/-- Witness for `truncation_respects_budget`: a 60-character name is
truncated with the ellipsis by both builders; a 20-character name is kept
unchanged by both. -/
theorem truncation_respects_budget_witness :
    ((∃ p, bpmnNameL (List.replicate 60 'a') = p ++ ellipsis) ∧
      (bpmnNameL (List.replicate 60 'a')).length ≤ 50 + ellipsis.length) ∧
    bpmnNameL (List.replicate 20 'a') = List.replicate 20 'a' ∧
    ((∃ p, graphNameL (List.replicate 60 'a') = p ++ ellipsis) ∧
      (graphNameL (List.replicate 60 'a')).length ≤ 30 + ellipsis.length) ∧
    graphNameL (List.replicate 20 'a') = List.replicate 20 'a' :=
  ⟨(truncation_respects_budget (List.replicate 60 'a')).1 (by simp),
   (truncation_respects_budget (List.replicate 20 'a')).2.1 (by simp),
   (truncation_respects_budget (List.replicate 60 'a')).2.2.1 (by simp),
   (truncation_respects_budget (List.replicate 20 'a')).2.2.2 (by simp)⟩

/-- C9: for the empty task list the diagram builder produces exactly the
synthetic start and end nodes and no edge at all. -/
theorem create_graph_empty (title : String) :
    (create_enhanced_graph [] title).nodes =
      [⟨"start", "START".toList, some "circle", some "lightgreen"⟩,
       ⟨"end", "END".toList, some "circle", some "lightcoral"⟩] ∧
    (create_enhanced_graph [] title).edges = [] := by
  exact ⟨rfl, rfl⟩

/-- C6: a stage whose required predecessor produced no output — whether
skipped itself or failed — is skipped: its external call is not attempted
and the skip notice is shown.  Analysis needs discovery output, redesign
needs analysis output, monitoring needs redesign output. -/
theorem dependent_stage_skipped (o : Oracle) :
    ((runLifecycle o).discovery.output = none →
      (runLifecycle o).analysis.attempted = false ∧
        (runLifecycle o).analysis.skipNotice = true) ∧
    ((runLifecycle o).analysis.output = none →
      (runLifecycle o).redesign.attempted = false ∧
        (runLifecycle o).redesign.skipNotice = true) ∧
    ((runLifecycle o).redesign.output = none →
      (runLifecycle o).monitoring.attempted = false ∧
        (runLifecycle o).monitoring.skipNotice = true) := by
  cases hd : o.discovery <;> cases ha : o.analysis <;> cases hr : o.redesign <;>
    simp [runLifecycle, callStage, skipStage, hd, ha, hr]

/-- Witness for `dependent_stage_skipped`: with every external call failing,
analysis, redesign and monitoring are all skipped with the notice. -/
theorem dependent_stage_skipped_witness :
    (runLifecycle ⟨none, none, none, none, none⟩).analysis.attempted = false ∧
    (runLifecycle ⟨none, none, none, none, none⟩).analysis.skipNotice = true ∧
    (runLifecycle ⟨none, none, none, none, none⟩).redesign.attempted = false ∧
    (runLifecycle ⟨none, none, none, none, none⟩).monitoring.skipNotice = true := by
  have h := dependent_stage_skipped ⟨none, none, none, none, none⟩
  exact ⟨(h.1 rfl).1, (h.1 rfl).2, (h.2.1 rfl).1, (h.2.2 rfl).2⟩

/-- C7: a failing external call is caught at its own stage and shown as an
inline error, and stages without a data dependency on the failed stage are
unaffected: every stage that is attempted and whose call fails gets
`errorShown`; the discovery, analysis, redesign and monitoring records do
not depend on the identification outcome, and discovery is always
attempted. -/
theorem stage_failure_isolated (o : Oracle) :
    ((runLifecycle o).identification.attempted = true → o.identification = none →
      (runLifecycle o).identification.errorShown = true) ∧
    ((runLifecycle o).discovery.attempted = true → o.discovery = none →
      (runLifecycle o).discovery.errorShown = true) ∧
    ((runLifecycle o).analysis.attempted = true → o.analysis = none →
      (runLifecycle o).analysis.errorShown = true) ∧
    ((runLifecycle o).redesign.attempted = true → o.redesign = none →
      (runLifecycle o).redesign.errorShown = true) ∧
    ((runLifecycle o).monitoring.attempted = true → o.monitoring = none →
      (runLifecycle o).monitoring.errorShown = true) ∧
    (runLifecycle { o with identification := none }).discovery
      = (runLifecycle o).discovery ∧
    (runLifecycle { o with identification := none }).analysis
      = (runLifecycle o).analysis ∧
    (runLifecycle { o with identification := none }).redesign
      = (runLifecycle o).redesign ∧
    (runLifecycle { o with identification := none }).monitoring
      = (runLifecycle o).monitoring ∧
    (runLifecycle o).discovery.attempted = true := by
  cases hd : o.discovery <;> cases ha : o.analysis <;> cases hr : o.redesign <;>
    simp [runLifecycle, callStage, skipStage, hd, ha, hr]

/-- Witness for `stage_failure_isolated`: identification fails while
discovery succeeds and analysis fails; identification and analysis show
errors, discovery is still attempted. -/
theorem stage_failure_isolated_witness :
    (runLifecycle ⟨none, some "d", none, none, none⟩).identification.errorShown
      = true ∧
    (runLifecycle ⟨none, some "d", none, none, none⟩).discovery.attempted
      = true ∧
    (runLifecycle ⟨none, some "d", none, none, none⟩).analysis.errorShown
      = true := by
  have h := stage_failure_isolated ⟨none, some "d", none, none, none⟩
  exact ⟨h.1 rfl rfl, h.2.2.2.2.2.2.2.2.2, h.2.2.1 rfl rfl⟩

/-- Witness for `extract_tasks_meets_policy` at a concrete input mixing all
three line kinds. -/
theorem extract_tasks_meets_policy_witness :
    extract_tasks_from_text "1. A\n- bullet item\nsubstantial plain line\nThe filler"
      = spec_extract "1. A\n- bullet item\nsubstantial plain line\nThe filler" :=
  extract_tasks_meets_policy
    "1. A\n- bullet item\nsubstantial plain line\nThe filler"

/-- Witness for `generate_bpmn_empty_string` at the default process name. -/
theorem generate_bpmn_empty_string_witness :
    generate_enhanced_bpmn_xml [] "Business Process" = none :=
  generate_bpmn_empty_string "Business Process"

/-- Witness for `create_graph_empty` at the default title. -/
theorem create_graph_empty_witness :
    (create_enhanced_graph [] "Process Flow").nodes =
      [⟨"start", "START".toList, some "circle", some "lightgreen"⟩,
       ⟨"end", "END".toList, some "circle", some "lightcoral"⟩] ∧
    (create_enhanced_graph [] "Process Flow").edges = [] :=
  create_graph_empty "Process Flow"

end BPMApp
